import Mathlib

/-!
# Stat Visibility Engine — verification development

Shallow embedding of the stat-selection/reveal logic of the `stat-attack`
repository (components `PlayerStats`, `PlayerSearch`, the guesses API route,
and the persistence schema), together with theorems settling the claims of
the natural-language specification.

The state of a namespace is a pair of JavaScript arrays of attribute keys,
modelled as Lean lists of strings; `filter`/`push`/`includes` on JS arrays
become `List.filter`/append/membership.
-/

set_option linter.unusedVariables false

namespace StatAttack

/-- One namespace's selection state: the `selected` (revealed) and
`deselected` (hidden) key arrays held by the creation page and threaded
through `onStatsChange`. -/
structure SelectionState where
  selected : List String
  deselected : List String
deriving DecidableEq, Repr

/-- One entry of a display-mapping table (`StatMapping` in
`src/utils/statMappings`): a human-readable label and an optional ordering
priority (`order`). -/
structure StatMapping where
  label : String
  order : Option Int
deriving DecidableEq, Repr

/-- A display-mapping table (`playerInfoMappings`, `hittingStatMappings`,
`pitchingStatMappings`): a finite map from attribute keys to `StatMapping`
entries, modelled as an association list. -/
abbrev MappingTable := List (String × StatMapping)

/-- JS `key in mappings` / `mappings[key]`: first-match lookup in the table. -/
def lookupMapping (m : MappingTable) (k : String) : Option StatMapping :=
  match m with
  | [] => none
  | (k', v) :: rest => if k' = k then some v else lookupMapping rest k

/-- `mappings[String(key)]?.order || 0`: the sort priority of a key, with a
default of `0` both when the key has no entry and when the entry has no
explicit (or a zero) `order` value. -/
def orderOf (m : MappingTable) (k : String) : Int :=
  match lookupMapping m k with
  | some sm => sm.order.getD 0
  | none => 0

/-- The comparator `(mappings[a]?.order || 0) - (mappings[b]?.order || 0)`
used by `getSortedKeys`: ascending order of priority. -/
def sortLe (m : MappingTable) (a b : String) : Prop := orderOf m a ≤ orderOf m b

instance (m : MappingTable) : DecidableRel (sortLe m) :=
  fun a b => Int.decLe _ _

instance (m : MappingTable) : IsTotal String (sortLe m) :=
  ⟨fun a b => Int.le_total _ _⟩

instance (m : MappingTable) : IsTrans String (sortLe m) :=
  ⟨fun _ _ _ => Int.le_trans⟩

/-- `getSortedKeys` (PlayerStats): keep the keys of the record that have a
(truthy) entry in the mapping table and sort them by priority.  JS
`Array.prototype.sort` with this comparator is a stable ascending sort, which
insertion sort implements. -/
def getSortedKeys (objKeys : List String) (m : MappingTable) : List String :=
  List.insertionSort (sortLe m) (objKeys.filter (fun k => (lookupMapping m k).isSome))

/-- `toggleAttribute` (PlayerStats): move `attr` to the other side of
the partition; when it is `"team"`, drag `"teamDetails"` to the same
side. -/
def toggleAttribute (attr : String) (s : SelectionState) : SelectionState :=
  if s.selected.contains attr then
    -- deselecting: remove from selected, push onto deselected; for "team",
    -- push "teamDetails" onto deselected (if absent) and drop it from selected
    if attr = "team" then
      { selected := (s.selected.filter (· != attr)).filter (· != "teamDetails"),
        deselected :=
          if (s.deselected ++ [attr]).contains "teamDetails" then s.deselected ++ [attr]
          else (s.deselected ++ [attr]) ++ ["teamDetails"] }
    else
      { selected := s.selected.filter (· != attr), deselected := s.deselected ++ [attr] }
  else
    -- selecting: remove from deselected, push onto selected; for "team",
    -- drop "teamDetails" from deselected and push it onto selected (if absent)
    if attr = "team" then
      { selected :=
          if (s.selected ++ [attr]).contains "teamDetails" then s.selected ++ [attr]
          else (s.selected ++ [attr]) ++ ["teamDetails"],
        deselected := (s.deselected.filter (· != attr)).filter (· != "teamDetails") }
    else
      { selected := s.selected ++ [attr], deselected := s.deselected.filter (· != attr) }

/-- `handleToggleAll` (PlayerStats): `selectedKeys` becomes the selected set;
with an empty request everything is deselected, otherwise the complement of
`selectedKeys` within `allKeys` is deselected, and `"teamDetails"` is filtered
out of the deselected list whenever `"team"` was requested. -/
def handleToggleAll (allKeys : List String) (selectedKeys : List String) : SelectionState :=
  if selectedKeys.isEmpty then
    { selected := selectedKeys, deselected := allKeys }
  else
    let deselectedKeys := allKeys.filter (fun k => !selectedKeys.contains k)
    let deselectedKeys :=
      if selectedKeys.contains "team" then deselectedKeys.filter (· != "teamDetails")
      else deselectedKeys
    { selected := selectedKeys, deselected := deselectedKeys }

/-- The info branch of `loadPlayerData` (PlayerStats): when configurable,
`onStatsChange('info', [], Object.keys(data.playerInfo))` runs
unconditionally — the prior state is ignored. -/
def initializeInfo (fullKeys : List String) (s : SelectionState) : SelectionState :=
  { selected := [], deselected := fullKeys }

/-- The hitting/pitching branch of `loadPlayerData` (PlayerStats): guarded by
`selected.length === 0 && deselected.length === 0`; when fresh, select every
key of the first record that has a mapping and deselect nothing. -/
def initializeStats (firstRecordKeys : List String) (m : MappingTable)
    (s : SelectionState) : SelectionState :=
  if s.selected.isEmpty && s.deselected.isEmpty then
    { selected := firstRecordKeys.filter (fun k => (lookupMapping m k).isSome),
      deselected := [] }
  else s

/-- The new-stat computation of `useRevealedStats`:
`stats.filter(stat => !previousStatsRef.current.has(stat))`. -/
def computeRevealEvent (previousSelected currentSelected : List String) : List String :=
  currentSelected.filter (fun k => !previousSelected.contains k)

/-- `C6`: `ComputeRevealEvent` returns exactly the set-difference
`currentSelected − previousSelected`; in particular
`ComputeRevealEvent({a}, {a,b}) = {b}` and
`ComputeRevealEvent({a,b}, {a,b}) = ∅`. -/
theorem C6_computeRevealEvent_diff :
    (∀ (prev cur : List String) (k : String),
      k ∈ computeRevealEvent prev cur ↔ (k ∈ cur ∧ k ∉ prev)) ∧
    computeRevealEvent ["a"] ["a", "b"] = ["b"] ∧
    computeRevealEvent ["a", "b"] ["a", "b"] = [] := by
  refine ⟨?_, by decide, by decide⟩
  intro prev cur k
  simp [computeRevealEvent]

/-- A small concrete hitting display-mapping table used to instantiate
hypotheses of the general theorems. -/
def hittingMappingEx : MappingTable :=
  [("avg", ⟨"AVG", some 1⟩), ("hr", ⟨"HR", some 2⟩)]

/-- `C1` (counterexample): starting from a state where `"teamDetails"` is on
the same side as `"team"` (both selected, neither deselected), a single
`Toggle("teamDetails")` leaves `"team"` selected but `"teamDetails"`
deselected; and `ToggleAll` with `newSelectedKeys = {"team"}` selects
`"team"` while leaving `"teamDetails"` unselected.  The pair does not move
together under every toggle operation. -/
theorem C1_pair_invariant_counterexample :
    (("team" ∈ (SelectionState.mk ["team", "teamDetails"] []).selected ↔
        "teamDetails" ∈ (SelectionState.mk ["team", "teamDetails"] []).selected) ∧
      ("team" ∈ (SelectionState.mk ["team", "teamDetails"] []).deselected ↔
        "teamDetails" ∈ (SelectionState.mk ["team", "teamDetails"] []).deselected)) ∧
    ¬ ("teamDetails" ∈
          (toggleAttribute "teamDetails" (SelectionState.mk ["team", "teamDetails"] [])).selected ↔
        "team" ∈
          (toggleAttribute "teamDetails" (SelectionState.mk ["team", "teamDetails"] [])).selected) ∧
    ¬ ("teamDetails" ∈ (handleToggleAll ["age", "team", "teamDetails"] ["team"]).selected ↔
        "team" ∈ (handleToggleAll ["age", "team", "teamDetails"] ["team"]).selected) := by
  decide

/-- `C1` (amended): if `"teamDetails"` starts on the same side as `"team"`,
then after a single `Toggle` on any key other than `"teamDetails"` itself,
`"teamDetails"` is selected iff `"team"` is selected; and after a `ToggleAll`
whose `newSelectedKeys` contains `"team"` iff it contains `"teamDetails"`,
the same holds.  (`Toggle("teamDetails")`, or a `ToggleAll` naming exactly
one of the pair, can split them: `ToggleAll` only removes `"teamDetails"`
from `deselected` when `"team"` is requested, it never adds it to
`selected`.) -/
theorem C1_pair_invariant_amended :
    (∀ (s : SelectionState) (k : String), k ≠ "teamDetails" →
      ("team" ∈ s.selected ↔ "teamDetails" ∈ s.selected) →
      ("team" ∈ s.deselected ↔ "teamDetails" ∈ s.deselected) →
      ("teamDetails" ∈ (toggleAttribute k s).selected ↔
        "team" ∈ (toggleAttribute k s).selected)) ∧
    (∀ (allKeys newSelectedKeys : List String),
      ("team" ∈ newSelectedKeys ↔ "teamDetails" ∈ newSelectedKeys) →
      ("teamDetails" ∈ (handleToggleAll allKeys newSelectedKeys).selected ↔
        "team" ∈ (handleToggleAll allKeys newSelectedKeys).selected)) := by
  constructor
  · intro s k hk hsel hdesel
    by_cases hteam : k = "team"
    · subst hteam
      by_cases hc : s.selected.contains "team"
      · unfold toggleAttribute
        rw [if_pos hc, if_pos rfl]
        simp [List.mem_filter]
      · unfold toggleAttribute
        rw [if_neg hc, if_pos rfl]
        by_cases hd : (s.selected ++ ["team"]).contains "teamDetails"
        · rw [if_pos hd]
          have htd : "teamDetails" ∈ s.selected := by
            have hd' : "teamDetails" ∈ s.selected ++ ["team"] := by
              simpa [List.elem_eq_mem] using hd
            rcases List.mem_append.mp hd' with h | h
            · exact h
            · exact absurd (List.mem_singleton.mp h) (by decide)
          simp [List.mem_append, htd]
        · rw [if_neg hd]
          simp [List.mem_append]
    · have hk' : "teamDetails" ≠ k := Ne.symm hk
      have ht' : "team" ≠ k := fun h => hteam h.symm
      by_cases hc : s.selected.contains k
      · unfold toggleAttribute
        rw [if_pos hc, if_neg hteam]
        simp [List.mem_filter, hk', ht', hsel]
      · unfold toggleAttribute
        rw [if_neg hc, if_neg hteam]
        simp [List.mem_append, hk', ht', hsel]
  · intro allKeys newSelectedKeys h
    unfold handleToggleAll
    by_cases hS : newSelectedKeys.isEmpty <;> simp [hS, h]

/-- Witness for `C1_pair_invariant_amended` at a concrete state: toggling
`"team"` from the all-deselected info state keeps the pair together. -/
theorem C1_pair_invariant_amended_witness :
    ("team" ≠ "teamDetails") ∧
    ("team" ∈ (SelectionState.mk [] ["age", "team", "teamDetails"]).selected ↔
      "teamDetails" ∈ (SelectionState.mk [] ["age", "team", "teamDetails"]).selected) ∧
    ("team" ∈ (SelectionState.mk [] ["age", "team", "teamDetails"]).deselected ↔
      "teamDetails" ∈ (SelectionState.mk [] ["age", "team", "teamDetails"]).deselected) ∧
    ("teamDetails" ∈
        (toggleAttribute "team" (SelectionState.mk [] ["age", "team", "teamDetails"])).selected ↔
      "team" ∈
        (toggleAttribute "team" (SelectionState.mk [] ["age", "team", "teamDetails"])).selected) :=
  ⟨by decide, by decide, by decide,
    C1_pair_invariant_amended.1 ⟨[], ["age", "team", "teamDetails"]⟩ "team"
      (by decide) (by decide) (by decide)⟩

/-- `C2`: for every non-empty full key set of the info namespace,
`Initialize` yields `selected = ∅` and `deselected = fullKeySet`. -/
theorem C2_initializeInfo_all_deselected (fullKeys : List String) (s : SelectionState)
    (h : fullKeys ≠ []) :
    (initializeInfo fullKeys s).selected = [] ∧
    (initializeInfo fullKeys s).deselected = fullKeys :=
  ⟨rfl, rfl⟩

/-- Witness for `C2_initializeInfo_all_deselected` at the spec's example
key set. -/
theorem C2_initializeInfo_all_deselected_witness :
    (["age", "team", "teamDetails"] : List String) ≠ [] ∧
    (initializeInfo ["age", "team", "teamDetails"] ⟨[], []⟩).selected = [] ∧
    (initializeInfo ["age", "team", "teamDetails"] ⟨[], []⟩).deselected
      = ["age", "team", "teamDetails"] :=
  ⟨by decide, C2_initializeInfo_all_deselected ["age", "team", "teamDetails"] ⟨[], []⟩ (by decide)⟩

/-- `C3` (counterexample): re-initializing the info namespace from the
non-empty state `selected = {"age"}, deselected = ∅` does not leave it
unchanged — it is reset to all-deselected.  `Initialize` is not a no-op for
the info namespace. -/
theorem C3_initialize_counterexample :
    initializeInfo ["age", "team"] ⟨["age"], []⟩ = ⟨[], ["age", "team"]⟩ ∧
    initializeInfo ["age", "team"] ⟨["age"], []⟩ ≠ ⟨["age"], []⟩ := by
  decide

/-- `C3` (amended): `Initialize` is a no-op on a non-empty `SelectionState`
for the hitting and pitching namespaces only; the info namespace is
re-initialized unconditionally (selected cleared, every key deselected). -/
theorem C3_initialize_idempotent_amended :
    (∀ (recKeys : List String) (m : MappingTable) (s : SelectionState),
      (s.selected ≠ [] ∨ s.deselected ≠ []) → initializeStats recKeys m s = s) ∧
    (∀ (fullKeys : List String) (s : SelectionState),
      initializeInfo fullKeys s = ⟨[], fullKeys⟩) := by
  constructor
  · intro recKeys m s h
    have hcond : ¬ ((s.selected.isEmpty && s.deselected.isEmpty) = true) := by
      simp only [Bool.and_eq_true, List.isEmpty_iff]
      tauto
    unfold initializeStats
    rw [if_neg hcond]
  · intro fullKeys s
    rfl

/-- Witness for `C3_initialize_idempotent_amended`: a non-empty hitting
state survives a repeated data load untouched. -/
theorem C3_initialize_idempotent_amended_witness :
    ((["avg"] : List String) ≠ [] ∨ ([] : List String) ≠ []) ∧
    initializeStats ["avg", "hr"] hittingMappingEx ⟨["avg"], []⟩ = ⟨["avg"], []⟩ :=
  ⟨Or.inl (by decide),
    C3_initialize_idempotent_amended.1 ["avg", "hr"] hittingMappingEx ⟨["avg"], []⟩
      (Or.inl (by decide))⟩

/-- `C4`: from a fresh state, `Initialize` for a hitting/pitching namespace
with a non-empty first record selects exactly the mapped keys of that
record, deselects nothing, covers the full key set restricted to mapped
keys, and keeps the two sets disjoint. -/
theorem C4_initializeStats_fresh (recKeys : List String) (m : MappingTable)
    (h : recKeys ≠ []) :
    (initializeStats recKeys m ⟨[], []⟩).selected
        = recKeys.filter (fun k => (lookupMapping m k).isSome) ∧
    (initializeStats recKeys m ⟨[], []⟩).deselected = [] ∧
    (∀ k, (k ∈ (initializeStats recKeys m ⟨[], []⟩).selected ∨
            k ∈ (initializeStats recKeys m ⟨[], []⟩).deselected) ↔
          (k ∈ recKeys ∧ (lookupMapping m k).isSome = true)) ∧
    (∀ k, ¬ (k ∈ (initializeStats recKeys m ⟨[], []⟩).selected ∧
             k ∈ (initializeStats recKeys m ⟨[], []⟩).deselected)) := by
  have hinit : initializeStats recKeys m ⟨[], []⟩
      = ⟨recKeys.filter (fun k => (lookupMapping m k).isSome), []⟩ := rfl
  refine ⟨by rw [hinit], by rw [hinit], ?_, ?_⟩
  · intro k
    rw [hinit]
    simp [List.mem_filter]
  · intro k
    rw [hinit]
    simp

/-- Witness for `C4_initializeStats_fresh`: a record with one unmapped key
initializes to the two mapped keys selected and nothing deselected. -/
theorem C4_initializeStats_fresh_witness :
    (["avg", "hr", "obscure"] : List String) ≠ [] ∧
    (initializeStats ["avg", "hr", "obscure"] hittingMappingEx ⟨[], []⟩).selected
      = ["avg", "hr"] := by
  refine ⟨by decide, ?_⟩
  rw [(C4_initializeStats_fresh ["avg", "hr", "obscure"] hittingMappingEx (by decide)).1]
  decide

/-- `C5`: a `ToggleAll` with a non-empty `newSelectedKeys` containing
`"team"` never leaves `"teamDetails"` in `deselected`; a `ToggleAll` with
empty `newSelectedKeys` yields `selected = ∅` and `deselected = fullKeySet`. -/
theorem C5_handleToggleAll_spec (allKeys newSelectedKeys : List String) :
    (newSelectedKeys ≠ [] → "team" ∈ newSelectedKeys →
      "teamDetails" ∉ (handleToggleAll allKeys newSelectedKeys).deselected) ∧
    (newSelectedKeys = [] →
      handleToggleAll allKeys newSelectedKeys = ⟨[], allKeys⟩) := by
  constructor
  · intro hne hteam
    unfold handleToggleAll
    have h1 : newSelectedKeys.isEmpty = false := by
      simp [List.isEmpty_iff, hne]
    simp [h1, hteam, List.mem_filter]
  · intro he
    subst he
    rfl

/-- Witness for `C5_handleToggleAll_spec` at concrete inputs for both
conjuncts. -/
theorem C5_handleToggleAll_spec_witness :
    (["team"] : List String) ≠ [] ∧ "team" ∈ (["team"] : List String) ∧
    "teamDetails" ∉ (handleToggleAll ["age", "team", "teamDetails"] ["team"]).deselected ∧
    handleToggleAll ["age", "team", "teamDetails"] [] = ⟨[], ["age", "team", "teamDetails"]⟩ :=
  ⟨by decide, by decide,
    (C5_handleToggleAll_spec ["age", "team", "teamDetails"] ["team"]).1 (by decide) (by decide),
    (C5_handleToggleAll_spec ["age", "team", "teamDetails"] []).2 rfl⟩

/-- A concrete mapping table with one key lacking an explicit priority and
one key with a positive explicit priority, for the ordering claim. -/
def mappingEx : MappingTable := [("a", ⟨"A", none⟩), ("b", ⟨"B", some 1⟩)]

/-- `C7` (counterexample): in a mapping table where key `"a"` has no
explicit priority and key `"b"` has priority `1`, sorting the record keys
`["b", "a"]` yields `["a", "b"]` — the key without an explicit priority
sorts first (as default priority zero), not last as the claim states. -/
theorem C7_getSortedKeys_counterexample :
    lookupMapping mappingEx "a" = some ⟨"A", none⟩ ∧
    lookupMapping mappingEx "b" = some ⟨"B", some 1⟩ ∧
    getSortedKeys ["b", "a"] mappingEx = ["a", "b"] ∧
    ¬ ["b", "a"].Sublist (getSortedKeys ["b", "a"] mappingEx) := by
  decide

/-- `C7` (amended): the key enumeration keeps exactly the mapped keys and
orders them ascending by per-key priority, a key without an explicit
priority getting default priority zero — hence such a key never appears
after a key that has a positive explicit priority (it sorts first, not
last). -/
theorem C7_getSortedKeys_priority_order (objKeys : List String) (m : MappingTable)
    (a b : String) (ma mb : StatMapping) (p : Int)
    (ha : lookupMapping m a = some ma) (hano : ma.order = none)
    (hb : lookupMapping m b = some mb) (hbo : mb.order = some p) (hp : 0 < p) :
    List.Sorted (sortLe m) (getSortedKeys objKeys m) ∧
    (getSortedKeys objKeys m).Perm
      (objKeys.filter (fun k => (lookupMapping m k).isSome)) ∧
    ¬ [b, a].Sublist (getSortedKeys objKeys m) := by
  refine ⟨List.sorted_insertionSort _ _, List.perm_insertionSort _ _, ?_⟩
  intro hsub
  have hpair : List.Pairwise (sortLe m) [b, a] :=
    List.Pairwise.sublist hsub (List.sorted_insertionSort _ _)
  have hba : sortLe m b a := by
    rcases hpair with _ | ⟨h, _⟩
    exact h a (List.mem_singleton.mpr rfl)
  have h1 : orderOf m a = 0 := by simp [orderOf, ha, hano]
  have h2 : orderOf m b = p := by simp [orderOf, hb, hbo]
  unfold sortLe at hba
  rw [h1, h2] at hba
  omega

/-- Witness for `C7_getSortedKeys_priority_order` at the concrete mapping
table and record keys of the counterexample scenario. -/
theorem C7_getSortedKeys_priority_order_witness :
    lookupMapping mappingEx "a" = some ⟨"A", none⟩ ∧
    (0 : Int) < 1 ∧
    List.Sorted (sortLe mappingEx) (getSortedKeys ["b", "a"] mappingEx) ∧
    (getSortedKeys ["b", "a"] mappingEx).Perm
      (["b", "a"].filter (fun k => (lookupMapping mappingEx k).isSome)) ∧
    ¬ ["b", "a"].Sublist (getSortedKeys ["b", "a"] mappingEx) :=
  ⟨by decide, by decide,
    C7_getSortedKeys_priority_order ["b", "a"] mappingEx "a" "b" ⟨"A", none⟩ ⟨"B", some 1⟩ 1
      rfl rfl rfl rfl (by decide)⟩

/-- The JSON body of a POST to the guesses route; each field may be absent
(`undefined` after destructuring `req.body`). -/
structure GuessBody where
  game_id : Option String
  user_id : Option String
  guess : Option Int
  is_correct : Option Bool
deriving DecidableEq, Repr

/-- A stored `UserGuess` row (prisma model `UserGuess`: all four columns
required). -/
structure GuessRow where
  game_id : String
  user_id : String
  guess : Int
  is_correct : Bool
deriving DecidableEq, Repr

/-- Modelled from the spec: the Persistence Provider's create-guess
operation (the `supabase.from('user_guesses').insert(...)` call, whose
implementation is outside the repository).  Per the `UserGuess` schema all
columns are required, so an insert with a missing field fails with a
constraint error and writes nothing; `ext` injects any other persistence
failure (network, permission), which also writes nothing. -/
def insertUserGuess (db : List GuessRow) (b : GuessBody) (ext : Option String) :
    Except String (List GuessRow) :=
  match b.game_id, b.user_id, b.guess, b.is_correct with
  | some g, some u, some gs, some c =>
    match ext with
    | some e => .error e
    | none => .ok (db ++ [⟨g, u, gs, c⟩])
  | _, _, _, _ => .error "null value violates not-null constraint"

/-- The handler's observable outcome: HTTP status, the error message sent
(if any), and the resulting store. -/
structure ApiResult where
  status : Nat
  errorMsg : Option String
  db : List GuessRow
deriving DecidableEq, Repr

/-- The POST branch of the guesses route handler: destructure the body,
insert, return 400 with the error message on failure and 201 on success. -/
def guessesPost (db : List GuessRow) (b : GuessBody) (ext : Option String) : ApiResult :=
  match insertUserGuess db b ext with
  | .error e => { status := 400, errorMsg := some e, db := db }
  | .ok db' => { status := 201, errorMsg := none, db := db' }

/-- `C8`: a POST with `game_id`, `user_id` or `guess` absent inserts no
record and yields a client-error response; every persistence failure yields
a 400 response carrying the underlying error message, with no partial
write. -/
theorem C8_guessesPost_validation (db : List GuessRow) (b : GuessBody) (ext : Option String) :
    ((b.game_id = none ∨ b.user_id = none ∨ b.guess = none) →
      (guessesPost db b ext).status = 400 ∧ (guessesPost db b ext).db = db) ∧
    (∀ e, insertUserGuess db b ext = .error e →
      guessesPost db b ext = { status := 400, errorMsg := some e, db := db }) := by
  constructor
  · intro hmiss
    have herr : ∃ e, insertUserGuess db b ext = .error e := by
      unfold insertUserGuess
      rcases b with ⟨g, u, gs, c⟩
      rcases hmiss with h | h | h <;> simp_all
    rcases herr with ⟨e, he⟩
    unfold guessesPost
    rw [he]
    exact ⟨rfl, rfl⟩
  · intro e he
    unfold guessesPost
    rw [he]

/-- Witness for `C8_guessesPost_validation`: a body missing `guess` is
rejected with status 400 and leaves the store unchanged; the constraint
error message is surfaced. -/
theorem C8_guessesPost_validation_witness :
    ((none : Option Int) = none) ∧
    (guessesPost [] ⟨some "g1", some "u1", none, some true⟩ none).status = 400 ∧
    (guessesPost [] ⟨some "g1", some "u1", none, some true⟩ none).db = [] ∧
    guessesPost [] ⟨some "g1", some "u1", none, some true⟩ none
      = { status := 400,
          errorMsg := some "null value violates not-null constraint",
          db := [] } :=
  ⟨rfl,
    And.intro
      ((C8_guessesPost_validation [] ⟨some "g1", some "u1", none, some true⟩ none).1
        (Or.inr (Or.inr rfl))).1
      (And.intro
        ((C8_guessesPost_validation [] ⟨some "g1", some "u1", none, some true⟩ none).1
          (Or.inr (Or.inr rfl))).2
        ((C8_guessesPost_validation [] ⟨some "g1", some "u1", none, some true⟩ none).2
          "null value violates not-null constraint" rfl))⟩

/-- A search result entry (`{identifier, displayName}`). -/
structure Player where
  id : Nat
  fullName : String
deriving DecidableEq, Repr

/-- The `PlayerSearch` component state relevant to querying: the input
text, the result list and whether the dropdown is open. -/
structure SearchState where
  search : String
  players : List Player
  menuOpen : Bool
deriving DecidableEq, Repr

/-- `searchPlayers` (PlayerSearch): guard clause for queries shorter than 2
characters (clear the results, no fetch); otherwise fetch and store the
provider's people list and open the dropdown.  The returned `Bool` records
whether the Statistics Provider was called. -/
def searchPlayers (query : String) (providerPeople : List Player) (st : SearchState) :
    Bool × SearchState :=
  if query.length < 2 then
    (false, { st with players := [] })
  else
    (true, { st with players := providerPeople, menuOpen := true })

/-- `handleSearch` (PlayerSearch): store the input text, then query only
when it has at least 2 characters, otherwise close the dropdown. -/
def handleSearch (value : String) (providerPeople : List Player) (st : SearchState) :
    Bool × SearchState :=
  let st1 := { st with search := value }
  if value.length ≥ 2 then searchPlayers value providerPeople st1
  else (false, { st1 with menuOpen := false })

/-- `C9`: a query of fewer than 2 characters makes no provider call and
sets the result list to empty; in particular a length-1 query through
`handleSearch` never triggers a provider call. -/
theorem C9_short_query_no_call (q : String) (people : List Player) (st : SearchState)
    (h : q.length < 2) :
    (searchPlayers q people st).1 = false ∧
    (searchPlayers q people st).2.players = [] ∧
    (handleSearch q people st).1 = false := by
  have hge : ¬ q.length ≥ 2 := by omega
  refine ⟨?_, ?_, ?_⟩
  · unfold searchPlayers
    rw [if_pos h]
  · unfold searchPlayers
    rw [if_pos h]
  · unfold handleSearch
    simp only [hge, if_false, reduceIte]

/-- Witness for `C9_short_query_no_call` at the one-character query
`"a"`. -/
theorem C9_short_query_no_call_witness :
    ("a".length < 2) ∧
    (searchPlayers "a" [⟨1, "Al"⟩] ⟨"", [], false⟩).1 = false ∧
    (searchPlayers "a" [⟨1, "Al"⟩] ⟨"", [], false⟩).2.players = [] ∧
    (handleSearch "a" [⟨1, "Al"⟩] ⟨"", [], false⟩).1 = false :=
  ⟨by decide, C9_short_query_no_call "a" [⟨1, "Al"⟩] ⟨"", [], false⟩ (by decide)⟩

/-- The internal state of `useRevealedStats`: the `isMountedRef`,
`previousStatsRef` and `newlyRevealed` values. -/
structure RevealState where
  isMounted : Bool
  prev : List String
  revealed : List String
deriving DecidableEq, Repr

/-- The mount effect of `useRevealedStats` (empty dependency array): on the
first run it marks the hook mounted and records the current stats as
already seen. -/
def revealEffectMount (stats : List String) (s : RevealState) : RevealState :=
  if s.isMounted then s
  else { s with isMounted := true, prev := stats }

/-- The `[stats]` effect of `useRevealedStats`: skip before mount;
otherwise compute the newly revealed stats relative to the previous render,
record the current stats as seen, and (only when something is new) replace
`newlyRevealed`. -/
def revealEffectUpdate (stats : List String) (s : RevealState) : RevealState :=
  if s.isMounted then
    let newStats := computeRevealEvent s.prev stats
    { s with prev := stats,
             revealed := if newStats.isEmpty then s.revealed else newStats }
  else s

/-- The state after the first render: both effects run in declaration
order on an initially unmounted state with empty refs. -/
def revealFirstRender (stats : List String) : RevealState :=
  revealEffectUpdate stats (revealEffectMount stats ⟨false, [], []⟩)

/-- `C10`: the first render records the initial selected set as seen and
reveals nothing, and any key revealed by the first post-mount change was
absent from the mount-time selected set — mount-time keys produce no reveal
event; only keys newly added by a later change are returned. -/
theorem C10_mount_reveals_nothing :
    (∀ stats : List String, revealFirstRender stats = ⟨true, stats, []⟩) ∧
    (∀ (stats stats' : List String) (k : String),
      k ∈ (revealEffectUpdate stats' (revealFirstRender stats)).revealed →
      k ∈ stats' ∧ k ∉ stats) := by
  have hfirst : ∀ stats : List String, revealFirstRender stats = ⟨true, stats, []⟩ := by
    intro stats
    unfold revealFirstRender revealEffectMount revealEffectUpdate
    simp [computeRevealEvent, List.filter_eq_nil_iff]
  refine ⟨hfirst, ?_⟩
  intro stats stats' k hk
  rw [hfirst] at hk
  unfold revealEffectUpdate at hk
  simp only [if_pos rfl, if_true] at hk
  by_cases hne : (computeRevealEvent stats stats').isEmpty
  · rw [if_pos hne] at hk
    simp at hk
  · rw [if_neg hne] at hk
    simpa [computeRevealEvent] using hk

/-- Witness for `C10_mount_reveals_nothing`: mounting with `{"a"}` and then
changing the selection to `{"a","b"}` reveals `"b"`, which was indeed newly
added after mount. -/
theorem C10_mount_reveals_nothing_witness :
    ("b" ∈ (revealEffectUpdate ["a", "b"] (revealFirstRender ["a"])).revealed) ∧
    ("b" ∈ (["a", "b"] : List String) ∧ "b" ∉ (["a"] : List String)) :=
  ⟨by decide, C10_mount_reveals_nothing.2 ["a"] ["a", "b"] "b" (by decide)⟩

end StatAttack
